import Mathlib

/-!
Verification development for the agentic-task-management repository.

The client code (Next.js front end under src/client and the unnamed
component variants) is shallowly embedded: React state updaters become
pure functions on an explicit client state, string comparisons in the
components are kept as string comparisons, and ISO-8601 timestamps are
modelled as integers ordered like their string renderings.  The backend
Orchestrator is not part of the source tree, so it is modelled from the
specification where a claim needs it.

The file lists all definitions first, then the theorems.
-/

namespace AgenticTM

/-- A task as the client manipulates it at runtime.  The shape follows
src/client/src/types/task.ts: id, title, optional description, status,
priority, optional due_date, created_at, updated_at.  Status and
priority are strings, because the components compare them as strings
and runtime data from the server is not checked against the TypeScript
union; timestamps are integers standing for ISO-8601 instants. -/
structure Task where
  id : Nat
  title : String
  description : Option String
  status : String
  priority : String
  due_date : Option Int
  created_at : Int
  updated_at : Int
deriving DecidableEq, Repr

/-- The status strings admitted by the Task type union in
src/client/src/types/task.ts. -/
def clientStatusUnion : List String :=
  ["inprogress", "completed", "overdue", "archived"]

/-- The priority strings admitted by the Task type union in
src/client/src/types/task.ts. -/
def clientPriorityUnion : List String :=
  ["LOW", "MEDIUM", "HIGH"]

/-- The status values the TaskItem select element assigns
(src/client/src/components/tasks/TaskItem.tsx, option values). -/
def taskItemStatusOptions : List String :=
  ["IN_PROGRESS", "COMPLETED", "ARCHIVED"]

/-- The canonical wire status vocabulary of the specification. -/
def wireStatuses : List String :=
  ["todo", "in_progress", "completed", "archived"]

/-- The canonical wire priority vocabulary of the specification. -/
def wirePriorities : List String :=
  ["low", "medium", "high"]

/-- The status union of src/client/src/types/task.ts as an inductive
type: a typed client Task carries exactly one of these four statuses. -/
inductive TsStatus where
  | inprogress
  | completed
  | overdue
  | archived
deriving DecidableEq, Repr

/-- The string a TsStatus value denotes in the TypeScript union. -/
def TsStatus.str : TsStatus → String
  | .inprogress => "inprogress"
  | .completed => "completed"
  | .overdue => "overdue"
  | .archived => "archived"

/-- The priority union of src/client/src/types/task.ts as an inductive
type. -/
inductive TsPriority where
  | low
  | medium
  | high
deriving DecidableEq, Repr

/-- The string a TsPriority value denotes in the TypeScript union. -/
def TsPriority.str : TsPriority → String
  | .low => "LOW"
  | .medium => "MEDIUM"
  | .high => "HIGH"

/-- A chat message as kept in the HomePage messages state
(src/client/src/types/task.ts, ChatMessage): a type tag, the text, and
the timestamp the handler stamped it with. -/
structure ChatMessage where
  type : String
  message : String
  timestamp : Int
deriving DecidableEq, Repr

/-- The HomePage client state: the chat messages and the task list held
in React state (src/client/src/app/page.tsx and src/unnamed/part_000). -/
structure ClientState where
  messages : List ChatMessage
  tasks : List Task
deriving DecidableEq, Repr

/-- A parsed server-to-client wire message, one of the four envelope
types of the specification. -/
inductive ServerMessage where
  | initialTasks (tasks : List Task)
  | agentResponse (message : String)
  | taskUpdate (tasks : List Task)
  | errorMsg (message : String)
deriving DecidableEq, Repr

/-- websocket.onmessage of the HomePage variant in src/unnamed/part_000:
initial_tasks sets the task list, agent_response appends an agent chat
message, task_update sets the task list, anything else falls through. -/
def onMessageHome (now : Int) (st : ClientState) : ServerMessage → ClientState
  | ServerMessage.initialTasks ts => { st with tasks := ts }
  | ServerMessage.agentResponse m =>
    { st with messages := st.messages ++ [⟨"agent", m, now⟩] }
  | ServerMessage.taskUpdate ts => { st with tasks := ts }
  | ServerMessage.errorMsg _ => st

/-- websocket.onmessage of src/client/src/app/page.tsx: only
agent_response has an effect; the task_update branch is empty and there
is no initial_tasks branch, so both leave the state untouched. -/
def onMessagePage (now : Int) (st : ClientState) : ServerMessage → ClientState
  | ServerMessage.agentResponse m =>
    { st with messages := st.messages ++ [⟨"agent", m, now⟩] }
  | _ => st

/-- handleMessageSent of HomePage (identical in page.tsx and
src/unnamed/part_000): it appends the user message to the chat and, when
the socket is open, sends the JSON object built by stringifying the
single-field object whose one key is message.  The outbound JSON object
is modelled as its list of key-value pairs. -/
def handleMessageSent (wsOpen : Bool) (now : Int) (message : String)
    (st : ClientState) : ClientState × Option (List (String × String)) :=
  ({ st with messages := st.messages ++ [⟨"user", message, now⟩] },
   if wsOpen then some [("message", message)] else none)

/-- The update object handed to handleTaskUpdate, the TypeScript type
being every field of Task made optional.  An outer none means the key is
absent from the object; an outer some means the key is present and the
object spread will overwrite the field with the carried value. -/
structure TaskUpdates where
  id : Option Nat := none
  title : Option String := none
  description : Option (Option String) := none
  status : Option String := none
  priority : Option String := none
  due_date : Option (Option Int) := none
  created_at : Option Int := none
  updated_at : Option Int := none
deriving DecidableEq, Repr

/-- The update object with no fields set. -/
def noUpdates : TaskUpdates := {}

/-- The object spread of a task with an updates object: each field
present in the updates overwrites the task's field, each absent field is
kept. -/
def mergeTask (t : Task) (u : TaskUpdates) : Task :=
  { id := u.id.getD t.id
    title := u.title.getD t.title
    description := u.description.getD t.description
    status := u.status.getD t.status
    priority := u.priority.getD t.priority
    due_date := u.due_date.getD t.due_date
    created_at := u.created_at.getD t.created_at
    updated_at := u.updated_at.getD t.updated_at }

/-- handleTaskUpdate of HomePage (identical in page.tsx and
src/unnamed/part_000): map over the previous list, spreading the updates
into the task whose id matches and keeping every other task. -/
def handleTaskUpdate (taskId : Nat) (u : TaskUpdates) (prev : List Task) :
    List Task :=
  prev.map (fun t => if t.id = taskId then mergeTask t u else t)

/-- The updates object built by the TaskItem toggle button in
src/unnamed/part_002: status becomes inprogress when the task is
completed and completed otherwise; no other field is supplied. -/
def toggleStatusUpdate (t : Task) : TaskUpdates :=
  { status := some (if t.status = "completed" then "inprogress" else "completed") }

/-- The four displayed groups of TaskList
(src/client/src/components/tasks/TaskList.tsx, the grouped object). -/
structure GroupedTasks where
  in_progress : List Task
  overdue : List Task
  completed : List Task
  archived : List Task
deriving DecidableEq, Repr

/-- The overdue filter of TaskList.tsx: false for completed or archived
tasks, false without a due date, otherwise true exactly when the due
date is strictly before the current time. -/
def isOverdueFilter (now : Int) (t : Task) : Bool :=
  if t.status == "completed" || t.status == "archived" then false
  else
    match t.due_date with
    | none => false
    | some d => decide (d < now)

/-- The grouped object computed by TaskList.tsx from its tasks prop:
four filters of the task list. -/
def grouped (now : Int) (tasks : List Task) : GroupedTasks :=
  { in_progress := tasks.filter (fun t => t.status == "inprogress")
    overdue := tasks.filter (isOverdueFilter now)
    completed := tasks.filter (fun t => t.status == "completed")
    archived := tasks.filter (fun t => t.status == "archived") }

/-- The trim of the ChatInterface input, modelled on a list of
characters: drop whitespace from the front, then from the back. -/
def jsTrim (s : List Char) : List Char :=
  (((s.dropWhile Char.isWhitespace).reverse).dropWhile Char.isWhitespace).reverse

/-- handleSubmit of ChatInterface (identical in src/unnamed/part_003 and
src/unnamed/part_004): when the trimmed input is nonempty (string
truthiness) and the connection is live, deliver the trimmed input and
clear the field; otherwise neither send nor clear.  The result is the
optional sent text paired with the new input-field state. -/
def handleSubmit (isConnected : Bool) (inputMessage : List Char) :
    Option (List Char) × List Char :=
  if !(jsTrim inputMessage).isEmpty && isConnected then
    (some (jsTrim inputMessage), [])
  else
    (none, inputMessage)

/-- Modelled from the spec: a named tool invocation the model may
request (ToolCall of section 3); the backend Orchestrator and Tool
Dispatcher are not under src/. -/
structure ToolCall where
  name : String
  args : List (String × String)
deriving DecidableEq, Repr

/-- Modelled from the spec: the model's reply is either final text or a
batch of tool invocations, treated as an opaque function of the
conversation turn. -/
inductive ModelResponse where
  | finalText (text : String)
  | toolCalls (calls : List ToolCall)
deriving DecidableEq, Repr

/-- Modelled from the spec: one entry of the conversation turn owned by
the Orchestrator - the user message or one invocation-result pair. -/
inductive TurnEntry where
  | user (message : String)
  | toolExchange (call : ToolCall) (result : String)
deriving DecidableEq, Repr

/-- Modelled from the spec: the outcome of one turn, final text plus
whether any dispatched tool changed store state. -/
structure TurnOutcome where
  finalText : String
  mutated : Bool
deriving DecidableEq, Repr

/-- Modelled from the spec: the three mutating operations. -/
def mutatingTools : List String := ["create", "update", "delete"]

/-- Modelled from the spec: the final text reported when the iteration
bound is reached. -/
def truncationText : String :=
  "Turn truncated: the maximum number of tool iterations was reached."

/-- Modelled from the spec: the AWAITING_MODEL/DISPATCHING_TOOLS loop of
the Orchestrator.  The first argument of the recursion is the number of
remaining model round trips; at zero the turn is forced to DONE with the
truncation text.  Otherwise the model is invoked on the turn so far:
final text ends the turn, tool invocations are each dispatched, their
results appended in order, the mutated flag is raised when an invocation
names a mutating operation, and the loop returns to AWAITING_MODEL.  The
result carries the outcome and the number of model invocations made. -/
def orchLoop (model : List TurnEntry → ModelResponse)
    (dispatch : ToolCall → String) :
    Nat → List TurnEntry → Bool → TurnOutcome × Nat
  | 0, _, mutated => (⟨truncationText, mutated⟩, 0)
  | fuel + 1, turn, mutated =>
    match model turn with
    | ModelResponse.finalText t => (⟨t, mutated⟩, 1)
    | ModelResponse.toolCalls calls =>
      let turn2 := turn ++ calls.map (fun c => TurnEntry.toolExchange c (dispatch c))
      let mutated2 := mutated || calls.any (fun c => mutatingTools.contains c.name)
      let r := orchLoop model dispatch fuel turn2 mutated2
      (r.1, r.2 + 1)

/-- Modelled from the spec: run one turn - start the loop on the user
message with the configured maximum iteration count and a clear mutated
flag. -/
def runTurn (model : List TurnEntry → ModelResponse)
    (dispatch : ToolCall → String) (maxIter : Nat) (userMessage : String) :
    TurnOutcome × Nat :=
  orchLoop model dispatch maxIter [TurnEntry.user userMessage] false

/-! Theorems. -/

/-- Claim C1 counterexample: the client vocabulary is not contained in
the canonical wire vocabulary.  The type-level status "inprogress", the
type-level priority "LOW" and the UI-assigned status "IN_PROGRESS" are
all client-interface values outside the canonical sets. -/
theorem clientVocabOutsideWire :
    "inprogress" ∈ clientStatusUnion ∧ "inprogress" ∉ wireStatuses ∧
    "LOW" ∈ clientPriorityUnion ∧ "LOW" ∉ wirePriorities ∧
    "IN_PROGRESS" ∈ taskItemStatusOptions ∧ "IN_PROGRESS" ∉ wireStatuses := by
  decide

/-- Claim C1 (amended): every Task value at the client's public
interface has its status in the client union and its priority in the
client priority union, and those client vocabularies are not the
canonical wire vocabulary: only "completed" and "archived" of the
type-level statuses are canonical, and none of the type-level
priorities or UI-assigned statuses are. -/
theorem clientVocabCharacterization :
    (∀ s : TsStatus, s.str ∈ clientStatusUnion) ∧
    (∀ p : TsPriority, p.str ∈ clientPriorityUnion) ∧
    clientStatusUnion.filter (fun s => wireStatuses.contains s) =
      ["completed", "archived"] ∧
    clientPriorityUnion.filter (fun p => wirePriorities.contains p) = [] ∧
    taskItemStatusOptions.filter (fun s => wireStatuses.contains s) = [] := by
  refine ⟨?_, ?_, ?_, ?_, ?_⟩
  · intro s; cases s <;> decide
  · intro p; cases p <;> decide
  · decide
  · decide
  · decide

theorem orchLoop_calls_le (model : List TurnEntry → ModelResponse)
    (dispatch : ToolCall → String) :
    ∀ (fuel : Nat) (turn : List TurnEntry) (mutated : Bool),
      (orchLoop model dispatch fuel turn mutated).2 ≤ fuel := by
  intro fuel
  induction fuel with
  | zero => intro turn mutated; simp [orchLoop]
  | succ n ih =>
    intro turn mutated
    cases hm : model turn with
    | finalText t => simp [orchLoop, hm]
    | toolCalls calls =>
      simp only [orchLoop, hm]
      exact Nat.succ_le_succ (ih _ _)

theorem orchLoop_always_tools_truncates
    (model : List TurnEntry → ModelResponse) (dispatch : ToolCall → String)
    (h : ∀ turn, ∃ calls, model turn = ModelResponse.toolCalls calls) :
    ∀ (fuel : Nat) (turn : List TurnEntry) (mutated : Bool),
      (orchLoop model dispatch fuel turn mutated).1.finalText = truncationText := by
  intro fuel
  induction fuel with
  | zero => intro turn mutated; rfl
  | succ n ih =>
    intro turn mutated
    obtain ⟨calls, hc⟩ := h turn
    simp only [orchLoop, hc]
    exact ih _ _

/-- Claim C2: for every model behavior and every dispatcher, one turn of
the Orchestrator makes at most the configured maximum number of model
round trips and always yields a TurnOutcome; when the model never stops
requesting tools, the turn still completes, with the truncation text as
its final text. -/
theorem orchestratorBounded (model : List TurnEntry → ModelResponse)
    (dispatch : ToolCall → String) (maxIter : Nat) (userMessage : String) :
    (runTurn model dispatch maxIter userMessage).2 ≤ maxIter ∧
    ((∀ turn, ∃ calls, model turn = ModelResponse.toolCalls calls) →
      (runTurn model dispatch maxIter userMessage).1.finalText = truncationText) :=
  ⟨orchLoop_calls_le model dispatch maxIter _ false,
   fun h => orchLoop_always_tools_truncates model dispatch h maxIter _ false⟩

/-- Claim C2 witness: a mocked model that always requests one more list
invocation is cut off after the bound of six round trips, ending in a
DONE outcome carrying the truncation text. -/
theorem orchestratorBoundedWitness :
    (runTurn (fun _ => ModelResponse.toolCalls [⟨"list", []⟩]) (fun _ => "ok")
      6 "hi").2 ≤ 6 ∧
    (runTurn (fun _ => ModelResponse.toolCalls [⟨"list", []⟩]) (fun _ => "ok")
      6 "hi").1.finalText = truncationText := by
  have h := orchestratorBounded (fun _ => ModelResponse.toolCalls [⟨"list", []⟩])
    (fun _ => "ok") 6 "hi"
  exact ⟨h.1, h.2 (fun turn => ⟨[⟨"list", []⟩], rfl⟩)⟩

/-- Claim C3 counterexample: the page.tsx client receives a task_update
carrying one task while holding an empty list, and its displayed task
list does not become the carried tasks array. -/
theorem taskUpdateIgnoredByPage :
    (onMessagePage 0 ⟨[], []⟩ (ServerMessage.taskUpdate
        [⟨1, "buy groceries", none, "todo", "medium", none, 0, 0⟩])).tasks
      ≠ [⟨1, "buy groceries", none, "todo", "medium", none, 0, 0⟩] := by
  decide

/-- Claim C3 (amended): the part_000 HomePage variant makes its task
list exactly the tasks array of every received task_update, while the
page.tsx variant leaves its task list unchanged on task_update. -/
theorem taskUpdateSetsTasks (now : Int) (st : ClientState) (ts : List Task) :
    (onMessageHome now st (ServerMessage.taskUpdate ts)).tasks = ts ∧
    (onMessagePage now st (ServerMessage.taskUpdate ts)).tasks = st.tasks :=
  ⟨rfl, rfl⟩

theorem mergeTask_noUpdates (t : Task) : mergeTask t noUpdates = t := rfl

theorem handleTaskUpdate_noUpdates (taskId : Nat) (prev : List Task) :
    handleTaskUpdate taskId noUpdates prev = prev := by
  unfold handleTaskUpdate
  have h : (fun t : Task => if t.id = taskId then mergeTask t noUpdates else t) =
      fun t => t := by
    funext t
    by_cases ht : t.id = taskId <;> simp [ht, mergeTask_noUpdates]
  rw [h, List.map_id']

/-- Claim C4: a client-side task update changes only the task at the
matching id, replaces exactly the fields present in the updates object,
keeps every other task, preserves the list's length and order (stated
per index), and an update with an empty field set is the identity. -/
theorem handleTaskUpdateFrame (taskId : Nat) (u : TaskUpdates)
    (prev : List Task) :
    (handleTaskUpdate taskId u prev).length = prev.length ∧
    (∀ (k : Nat) (t : Task), prev[k]? = some t → t.id ≠ taskId →
      (handleTaskUpdate taskId u prev)[k]? = some t) ∧
    (∀ (k : Nat) (t : Task), prev[k]? = some t → t.id = taskId →
      (handleTaskUpdate taskId u prev)[k]? = some (mergeTask t u)) ∧
    (∀ t : Task,
      (u.id = none → (mergeTask t u).id = t.id) ∧
      (u.title = none → (mergeTask t u).title = t.title) ∧
      (u.description = none → (mergeTask t u).description = t.description) ∧
      (u.status = none → (mergeTask t u).status = t.status) ∧
      (u.priority = none → (mergeTask t u).priority = t.priority) ∧
      (u.due_date = none → (mergeTask t u).due_date = t.due_date) ∧
      (u.created_at = none → (mergeTask t u).created_at = t.created_at) ∧
      (u.updated_at = none → (mergeTask t u).updated_at = t.updated_at) ∧
      (∀ v, u.id = some v → (mergeTask t u).id = v) ∧
      (∀ v, u.title = some v → (mergeTask t u).title = v) ∧
      (∀ v, u.description = some v → (mergeTask t u).description = v) ∧
      (∀ v, u.status = some v → (mergeTask t u).status = v) ∧
      (∀ v, u.priority = some v → (mergeTask t u).priority = v) ∧
      (∀ v, u.due_date = some v → (mergeTask t u).due_date = v) ∧
      (∀ v, u.created_at = some v → (mergeTask t u).created_at = v) ∧
      (∀ v, u.updated_at = some v → (mergeTask t u).updated_at = v)) ∧
    handleTaskUpdate taskId noUpdates prev = prev := by
  refine ⟨?_, ?_, ?_, ?_, handleTaskUpdate_noUpdates taskId prev⟩
  · simp [handleTaskUpdate]
  · intro k t ht hne
    simp [handleTaskUpdate, List.getElem?_map, ht, hne]
  · intro k t ht heq
    simp [handleTaskUpdate, List.getElem?_map, ht, heq]
  · intro t
    refine ⟨?_, ?_, ?_, ?_, ?_, ?_, ?_, ?_, ?_, ?_, ?_, ?_, ?_, ?_, ?_, ?_⟩ <;>
      first
      | (intro h; simp [mergeTask, h])
      | (intro v h; simp [mergeTask, h])

/-- Claim C4 witness: updating task 1 in a two-task list replaces the
status of task 1 and keeps task 2 at its position. -/
theorem handleTaskUpdateFrameWitness :
    (handleTaskUpdate 1 { status := some "completed" }
      [⟨1, "a", none, "inprogress", "LOW", none, 0, 0⟩,
       ⟨2, "b", none, "archived", "HIGH", none, 0, 0⟩])[1]?
      = some ⟨2, "b", none, "archived", "HIGH", none, 0, 0⟩ ∧
    (handleTaskUpdate 1 { status := some "completed" }
      [⟨1, "a", none, "inprogress", "LOW", none, 0, 0⟩,
       ⟨2, "b", none, "archived", "HIGH", none, 0, 0⟩])[0]?
      = some (mergeTask ⟨1, "a", none, "inprogress", "LOW", none, 0, 0⟩
          { status := some "completed" }) := by
  have h := handleTaskUpdateFrame 1 { status := some "completed" }
    [⟨1, "a", none, "inprogress", "LOW", none, 0, 0⟩,
     ⟨2, "b", none, "archived", "HIGH", none, 0, 0⟩]
  exact ⟨h.2.1 1 ⟨2, "b", none, "archived", "HIGH", none, 0, 0⟩ rfl (by decide),
    h.2.2.1 0 ⟨1, "a", none, "inprogress", "LOW", none, 0, 0⟩ rfl rfl⟩

/-- Claim C5 counterexample: the TaskItem toggle mutates the status
field of a task, yet the client-side update leaves updated_at at its old
value 100 instead of resetting it. -/
theorem updatedAtNotReset :
    (handleTaskUpdate 1
        (toggleStatusUpdate ⟨1, "t", none, "inprogress", "LOW", none, 0, 100⟩)
        [⟨1, "t", none, "inprogress", "LOW", none, 0, 100⟩]).map Task.status
      = ["completed"] ∧
    "completed" ≠ "inprogress" ∧
    (handleTaskUpdate 1
        (toggleStatusUpdate ⟨1, "t", none, "inprogress", "LOW", none, 0, 100⟩)
        [⟨1, "t", none, "inprogress", "LOW", none, 0, 100⟩]).map Task.updated_at
      = [100] := by
  decide

/-- Claim C5 (amended): a client-side update never changes updated_at
unless updated_at itself is among the supplied fields; in particular the
TaskItem status toggle mutates the status while leaving updated_at
unchanged, and an update with no fields leaves the task, updated_at
included, unchanged. -/
theorem updatedAtClientBehavior (t : Task) (u : TaskUpdates) :
    (u.updated_at = none → (mergeTask t u).updated_at = t.updated_at) ∧
    (mergeTask t (toggleStatusUpdate t)).updated_at = t.updated_at ∧
    (mergeTask t (toggleStatusUpdate t)).status ≠ t.status ∧
    mergeTask t noUpdates = t := by
  refine ⟨fun h => by simp [mergeTask, h], rfl, ?_, mergeTask_noUpdates t⟩
  by_cases h : t.status = "completed"
  · simp [mergeTask, toggleStatusUpdate, h]
  · simp [mergeTask, toggleStatusUpdate, h]
    exact fun hc => h hc.symm

/-- Claim C5 witness: an update carrying only a status change leaves
updated_at at its previous value. -/
theorem updatedAtClientBehaviorWitness :
    (mergeTask ⟨4, "slides", none, "inprogress", "MEDIUM", none, 0, 250⟩
        { status := some "archived" }).updated_at
      = (⟨4, "slides", none, "inprogress", "MEDIUM", none, 0, 250⟩ : Task).updated_at :=
  (updatedAtClientBehavior ⟨4, "slides", none, "inprogress", "MEDIUM", none, 0, 250⟩
    { status := some "archived" }).1 rfl

/-- Claim C6: whenever handleMessageSent sends a payload over the
connection, that payload is a JSON object with exactly one key,
"message", whose value is the user's free text. -/
theorem clientOutboundShape (wsOpen : Bool) (now : Int) (message : String)
    (st : ClientState) :
    ∀ payload, (handleMessageSent wsOpen now message st).2 = some payload →
      payload.map Prod.fst = ["message"] ∧ payload = [("message", message)] := by
  intro payload h
  cases wsOpen with
  | false => simp [handleMessageSent] at h
  | true =>
    simp [handleMessageSent] at h
    subst h
    exact ⟨rfl, rfl⟩

/-- Claim C6 witness: sending "create a task to buy groceries" on an
open connection yields the one-key object. -/
theorem clientOutboundShapeWitness :
    ([("message", "create a task to buy groceries")] :
        List (String × String)).map Prod.fst = ["message"] ∧
    ([("message", "create a task to buy groceries")] :
        List (String × String)) = [("message", "create a task to buy groceries")] :=
  clientOutboundShape true 0 "create a task to buy groceries" ⟨[], []⟩
    [("message", "create a task to buy groceries")] rfl

/-- Claim C7 counterexample: the page.tsx client receives initial_tasks
carrying one task while holding an empty list, and its task list is not
set to the carried tasks array. -/
theorem initialTasksIgnoredByPage :
    (onMessagePage 0 ⟨[], []⟩ (ServerMessage.initialTasks
        [⟨2, "kitchen inventory", some "high priority", "inprogress", "HIGH",
          some 5, 1, 1⟩])).tasks
      ≠ [⟨2, "kitchen inventory", some "high priority", "inprogress", "HIGH",
          some 5, 1, 1⟩] := by
  decide

/-- Claim C7 (amended): the part_000 HomePage variant sets its task list
to the tasks array of a received initial_tasks message, while the
page.tsx variant has no initial_tasks branch and leaves its task list
unchanged. -/
theorem initialTasksSetTasks (now : Int) (st : ClientState) (ts : List Task) :
    (onMessageHome now st (ServerMessage.initialTasks ts)).tasks = ts ∧
    (onMessagePage now st (ServerMessage.initialTasks ts)).tasks = st.tasks :=
  ⟨rfl, rfl⟩

/-- Claim C8: a task whose status is none of inprogress, completed,
archived and whose due date is absent or not strictly earlier than the
current time appears in none of the four displayed groups; in particular
a task with status todo and no past due date is not displayed at all. -/
theorem hiddenTaskNotGrouped (now : Int) (tasks : List Task) (t : Task)
    (h1 : t.status ≠ "inprogress") (h2 : t.status ≠ "completed")
    (h3 : t.status ≠ "archived")
    (h4 : ∀ d, t.due_date = some d → ¬ d < now) :
    t ∉ (grouped now tasks).in_progress ∧
    t ∉ (grouped now tasks).overdue ∧
    t ∉ (grouped now tasks).completed ∧
    t ∉ (grouped now tasks).archived := by
  refine ⟨?_, ?_, ?_, ?_⟩
  · intro hm
    exact h1 (by simpa using (List.mem_filter.mp hm).2)
  · intro hm
    have hp := (List.mem_filter.mp hm).2
    unfold isOverdueFilter at hp
    rw [if_neg] at hp
    · cases hd : t.due_date with
      | none => rw [hd] at hp; simp at hp
      | some d =>
        rw [hd] at hp
        exact h4 d hd (of_decide_eq_true hp)
    · simp [h2, h3]
  · intro hm
    exact h2 (by simpa using (List.mem_filter.mp hm).2)
  · intro hm
    exact h3 (by simpa using (List.mem_filter.mp hm).2)

/-- Claim C8 witness: a todo task with no due date, present in the task
list, appears in none of the four groups. -/
theorem hiddenTaskNotGroupedWitness :
    (⟨6, "new low priority task", none, "todo", "low", none, 0, 0⟩ : Task) ∉
      (grouped 0 [⟨6, "new low priority task", none, "todo", "low", none, 0, 0⟩]).in_progress ∧
    (⟨6, "new low priority task", none, "todo", "low", none, 0, 0⟩ : Task) ∉
      (grouped 0 [⟨6, "new low priority task", none, "todo", "low", none, 0, 0⟩]).overdue ∧
    (⟨6, "new low priority task", none, "todo", "low", none, 0, 0⟩ : Task) ∉
      (grouped 0 [⟨6, "new low priority task", none, "todo", "low", none, 0, 0⟩]).completed ∧
    (⟨6, "new low priority task", none, "todo", "low", none, 0, 0⟩ : Task) ∉
      (grouped 0 [⟨6, "new low priority task", none, "todo", "low", none, 0, 0⟩]).archived :=
  hiddenTaskNotGrouped 0
    [⟨6, "new low priority task", none, "todo", "low", none, 0, 0⟩]
    ⟨6, "new low priority task", none, "todo", "low", none, 0, 0⟩
    (by decide) (by decide) (by decide)
    (fun d hd => absurd hd (by simp))

/-- Claim C9: a client-side update whose taskId matches no task in the
list returns the list completely unchanged; handleTaskUpdate is a total
function, so no error is raised. -/
theorem handleTaskUpdateMissingId (taskId : Nat) (u : TaskUpdates)
    (prev : List Task) (h : ∀ t ∈ prev, t.id ≠ taskId) :
    handleTaskUpdate taskId u prev = prev := by
  induction prev with
  | nil => rfl
  | cons a l ih =>
    have ha := h a (List.mem_cons_self a l)
    have hl := ih (fun t ht => h t (List.mem_cons_of_mem a ht))
    simp only [handleTaskUpdate, List.map_cons, if_neg ha] at *
    rw [hl]

/-- Claim C9 witness: updating id 999 in a list whose only task has id 3
is a no-op. -/
theorem handleTaskUpdateMissingIdWitness :
    handleTaskUpdate 999 { status := some "completed" }
      [⟨3, "report", none, "overdue", "HIGH", some 7, 2, 2⟩]
      = [⟨3, "report", none, "overdue", "HIGH", some 7, 2, 2⟩] :=
  handleTaskUpdateMissingId 999 { status := some "completed" }
    [⟨3, "report", none, "overdue", "HIGH", some 7, 2, 2⟩] (by decide)

theorem jsTrim_eq_nil_iff (s : List Char) :
    jsTrim s = [] ↔ ∀ c ∈ s, Char.isWhitespace c := by
  unfold jsTrim
  rw [List.reverse_eq_nil_iff, List.dropWhile_eq_nil_iff]
  constructor
  · intro h c hc
    have hdrop : ∀ x ∈ s.dropWhile Char.isWhitespace, Char.isWhitespace x :=
      fun x hx => h x (List.mem_reverse.mpr hx)
    rw [← List.takeWhile_append_dropWhile (p := Char.isWhitespace) (l := s)] at hc
    rcases List.mem_append.mp hc with hc1 | hc2
    · exact List.mem_takeWhile_imp hc1
    · exact hdrop c hc2
  · intro h x hx
    exact h x ((List.dropWhile_sublist Char.isWhitespace).mem (List.mem_reverse.mp hx))

/-- Claim C10: the submit handler sends exactly when the connection is
live and the input holds a non-whitespace character; what it sends is
the input with leading and trailing whitespace removed, and it then
clears the field; when it does not send, the field keeps its text. -/
theorem chatSubmitSpec (isConnected : Bool) (inputMessage : List Char) :
    ((handleSubmit isConnected inputMessage).1.isSome = true ↔
      (isConnected = true ∧ ∃ c ∈ inputMessage, Char.isWhitespace c = false)) ∧
    (∀ m, (handleSubmit isConnected inputMessage).1 = some m →
      m = jsTrim inputMessage ∧ (handleSubmit isConnected inputMessage).2 = []) ∧
    ((handleSubmit isConnected inputMessage).1 = none →
      (handleSubmit isConnected inputMessage).2 = inputMessage) := by
  by_cases hc : (!(jsTrim inputMessage).isEmpty && isConnected) = true
  · have hs : handleSubmit isConnected inputMessage =
        (some (jsTrim inputMessage), []) := by
      unfold handleSubmit
      rw [if_pos hc]
    rw [Bool.and_eq_true] at hc
    obtain ⟨hne, hconn⟩ := hc
    have htrim : jsTrim inputMessage ≠ [] := by
      intro h0
      rw [h0] at hne
      simp at hne
    refine ⟨?_, ?_, ?_⟩
    · rw [hs]
      simp only [Option.isSome_some, true_iff]
      refine ⟨hconn, ?_⟩
      by_contra hno
      push_neg at hno
      refine htrim ((jsTrim_eq_nil_iff inputMessage).mpr (fun c hcmem => ?_))
      have hcb := hno c hcmem
      cases hw : Char.isWhitespace c
      · exact absurd hw hcb
      · rfl
    · intro m hm
      rw [hs] at hm
      exact ⟨(Option.some_inj.mp hm).symm, by rw [hs]⟩
    · intro hnone
      rw [hs] at hnone
      exact absurd hnone (by simp)
  · have hs : handleSubmit isConnected inputMessage = (none, inputMessage) := by
      unfold handleSubmit
      rw [if_neg hc]
    refine ⟨?_, ?_, ?_⟩
    · rw [hs]
      constructor
      · intro habs
        exact absurd habs (by simp)
      · rintro ⟨hconn, c, hcmem, hcw⟩
        exfalso
        apply hc
        rw [Bool.and_eq_true]
        refine ⟨?_, hconn⟩
        have htrim : jsTrim inputMessage ≠ [] := fun habs =>
          absurd (((jsTrim_eq_nil_iff inputMessage).mp habs) c hcmem)
            (by rw [hcw]; exact Bool.false_ne_true)
        have hie : (jsTrim inputMessage).isEmpty = false := by
          simp [List.isEmpty_iff, htrim]
        rw [hie]
        rfl
    · intro m hm
      rw [hs] at hm
      exact absurd hm (by simp)
    · intro _
      rw [hs]

/-- Claim C10 witness: on a live connection, submitting two spaces, the
word hi, and two spaces sends the word hi and clears the field. -/
theorem chatSubmitSpecWitness :
    (handleSubmit true [' ', ' ', 'h', 'i', ' ', ' ']).1
      = some (jsTrim [' ', ' ', 'h', 'i', ' ', ' ']) ∧
    (handleSubmit true [' ', ' ', 'h', 'i', ' ', ' ']).2 = [] ∧
    jsTrim [' ', ' ', 'h', 'i', ' ', ' '] = ['h', 'i'] := by
  have h := (chatSubmitSpec true [' ', ' ', 'h', 'i', ' ', ' ']).2.1
    (jsTrim [' ', ' ', 'h', 'i', ' ', ' ']) (by decide)
  exact ⟨by decide, h.2, by decide⟩

end AgenticTM
